import Mathlib

/-!
Shallow embedding of `src/libksm_preload.c` (ksm_preload): an LD_PRELOAD
shim that hooks calloc, malloc, mmap, mremap and realloc, delegates each
call to the real primitive, and advises the kernel (madvise MADV_MERGEABLE)
on regions that pass a profitability policy.

Machine integers are modelled as `Nat`/`Int` with explicit reductions
modulo 2^w where the C code could overflow or convert.  Pointers are
modelled as `Nat` (the `uintptr_t` value); the null pointer is 0.
External effects are modelled explicitly: `dlsym` is an oracle
`String → Option Nat`, the environment is `String → Option String`, the
issued madvise call is returned as data, and `error (1, ...)` becomes an
`Except FatalError` result.
-/

namespace KsmPreload

/-! ## Platform constants (Linux/x86_64, as in sys/mman.h and limits.h) -/

def MAP_PRIVATE : Int := 0x02

def MAP_ANONYMOUS : Int := 0x20

def MAP_GROWSDOWN : Int := 0x0100

def MAP_STACK : Int := 0x20000

def MREMAP_FIXED : Int := 2

def MADV_MERGEABLE : Nat := 12

def INT_MAX : Int := 2 ^ 31 - 1

def LONG_MAX : Int := 2 ^ 63 - 1

def LONG_MIN : Int := -(2 ^ 63)

/-- Modulus of `size_t` / `uintptr_t` arithmetic (64-bit). -/
def SIZE_MOD : Nat := 2 ^ 64

/-- Conversion of a C `int` value to `size_t`, as in the comparison
`new_length <= globals.merge_threshold` (usual arithmetic conversions). -/
def int_to_size_t (i : Int) : Nat := (i % (2 ^ 64 : Int)).toNat

/-- Bitwise AND of two C `int` values (32-bit two's complement). -/
def c_int_and (a b : Int) : Int :=
  (((a % (2 ^ 32 : Int)).toNat &&& (b % (2 ^ 32 : Int)).toNat : Nat) : Int)

/-- The environment variable read by `setup` (line 43). -/
def MERGE_THRESHOLD_ENV_NAME : String := "KSMP_MERGE_THRESHOLD"

/-! ## Global state (the `globals` struct, lines 71-102) -/

/-- The `globals` struct: the five resolved primitives (as addresses),
the page size and the merge threshold.  `merge_threshold` is a C `int`,
hence `Int`. -/
structure Globals where
  ext_calloc : Nat
  ext_malloc : Nat
  ext_mmap : Nat
  ext_mremap : Nat
  ext_realloc : Nat
  page_size : Nat
  merge_threshold : Int
  deriving Repr, DecidableEq

/-- The build-time initialiser of `globals` (lines 87-102): the libc
fallback addresses are link-time values, taken here as parameters;
`ext_mremap` is NULL, `page_size` is 4096 and the merge threshold is
`4096 * 8`. -/
def initGlobals (libc_calloc libc_malloc libc_mmap libc_realloc : Nat) : Globals :=
  { ext_calloc := libc_calloc
    ext_malloc := libc_malloc
    ext_mmap := libc_mmap
    ext_mremap := 0
    ext_realloc := libc_realloc
    page_size := 4096
    merge_threshold := 4096 * 8 }

/-! ## strtol model (C library, base 10), used by `get_int_from_environment` -/

/-- C `isspace` characters skipped by `strtol`. -/
def isSpaceC (c : Char) : Bool :=
  c = ' ' || c = '\t' || c = '\n' || c = '\x0b' || c = '\x0c' || c = '\r'

/-- Value of a list of decimal digit characters. -/
def digitsVal (ds : List Char) : Nat :=
  ds.foldl (fun a c => a * 10 + (c.toNat - 48)) 0

/-- `strtol (s, &end, 10)`: skips leading whitespace and an optional
sign, consumes decimal digits, clamps to `[LONG_MIN, LONG_MAX]`.
Returns the value and the remaining characters after the consumed
part (the suffix `end` points to; `[]` means `end` is at the
terminating NUL).  If no digits are consumed there is no conversion:
the value is 0 and `end` is the original pointer. -/
def strtol10 (s : List Char) : Int × List Char :=
  let afterSpace := s.dropWhile isSpaceC
  let signAndRest : Bool × List Char :=
    match afterSpace with
    | '-' :: rest => (true, rest)
    | '+' :: rest => (false, rest)
    | _ => (false, afterSpace)
  let digits := signAndRest.2.takeWhile Char.isDigit
  let rest := signAndRest.2.dropWhile Char.isDigit
  if digits.isEmpty then (0, s)
  else
    let v : Int := if signAndRest.1 then -(digitsVal digits : Int) else (digitsVal digits : Int)
    (max LONG_MIN (min LONG_MAX v), rest)

/-! ## Configuration resolver (`get_int_from_environment`, lines 119-145) -/

/-- `get_int_from_environment`: reads `var_name` from the environment and
parses it as a positive base-10 integer; returns the value truncated to
`INT_MAX`, or -1 if the variable is undefined or invalid
(`*var_string_end != '\0' || var_value < 0`). -/
def get_int_from_environment (env : String → Option String) (var_name : String) : Int :=
  match env var_name with
  | none => -1
  | some var_string =>
    let r := strtol10 var_string.toList
    let var_value := r.1
    let var_string_end := r.2
    if var_string_end ≠ [] ∨ var_value < 0 then -1
    else if var_value > INT_MAX then INT_MAX
    else var_value

/-! ## Real-primitive locator (`xdlsym`, lines 147-159, and `setup`, 161-190) -/

/-- The effect of `error (1, 0, "failed to load %s : %s", ...)`: process
abort with a nonzero exit status and a diagnostic message. -/
structure FatalError where
  status : Nat
  msg : String
  deriving Repr, DecidableEq

/-- `xdlsym`: like `dlsym` but aborts the process (`error (1, 0, ...)`)
when the symbol does not resolve.  The dynamic loader is the oracle
`dl : String → Option Nat`. -/
def xdlsym (dl : String → Option Nat) (symbol : String) : Except FatalError Nat :=
  match dl symbol with
  | some res => .ok res
  | none => .error { status := 1, msg := "failed to load " ++ symbol }

/-- The five symbol names `setup` resolves, in resolution order. -/
def hookedSymbols : List String := ["calloc", "malloc", "mmap", "mremap", "realloc"]

/-- `setup` (lines 162-190): resolves the five symbols with `xdlsym`
(aborting on the first failure, before anything is installed), reads the
page size (`sysconf`, modelled as the parameter `ps`) and the merge
threshold from the environment, and installs everything into `globals`.
The environment value overrides the threshold only when it is `>= 0`. -/
def setup (dl : String → Option Nat) (ps : Nat) (env : String → Option String)
    (g : Globals) : Except FatalError Globals := do
  let dl_calloc ← xdlsym dl "calloc"
  let dl_malloc ← xdlsym dl "malloc"
  let dl_mmap ← xdlsym dl "mmap"
  let dl_mremap ← xdlsym dl "mremap"
  let dl_realloc ← xdlsym dl "realloc"
  let env_merge_treshold := get_int_from_environment env MERGE_THRESHOLD_ENV_NAME
  let merge_threshold := if env_merge_treshold ≥ 0 then env_merge_treshold else g.merge_threshold
  return { ext_calloc := dl_calloc
           ext_malloc := dl_malloc
           ext_mmap := dl_mmap
           ext_mremap := dl_mremap
           ext_realloc := dl_realloc
           page_size := ps
           merge_threshold := merge_threshold }

/-! ## Merge-profitability policy (`merge_if_profitable`, lines 224-252) -/

/-- A `madvise (page_address, new_length, MADV_MERGEABLE)` call, as data. -/
structure AdviseCall where
  addr : Nat
  len : Nat
  advice : Nat
  deriving Repr, DecidableEq

/-- The flag filter of lines 240-243: flags are unknown (`flags == -1`),
or the required flags are present and the forbidden ones are not. -/
def flags_allow (flags : Int) : Prop :=
  flags = -1 ∨
    (c_int_and flags MAP_PRIVATE ≠ 0 ∧ c_int_and flags MAP_ANONYMOUS ≠ 0 ∧
      c_int_and flags MAP_GROWSDOWN = 0 ∧ c_int_and flags MAP_STACK = 0)

instance (flags : Int) : Decidable (flags_allow flags) := by
  unfold flags_allow; infer_instance

/-- `merge_if_profitable`: rounds `address` down to its page, extends
`length` by the offset (size_t arithmetic), returns without effect when
the new length is at most the threshold or the address is NULL, and
otherwise issues the madvise call when the flag filter passes.  The
issued call (if any) is the return value. -/
def merge_if_profitable (g : Globals) (address length : Nat) (flags : Int) :
    Option AdviseCall :=
  let raw_address := address
  let page_address := raw_address / g.page_size * g.page_size
  let new_length := (length + (raw_address - page_address)) % SIZE_MOD
  if new_length ≤ int_to_size_t g.merge_threshold ∨ address = 0 then none
  else if flags_allow flags then
    some { addr := page_address, len := new_length, advice := MADV_MERGEABLE }
  else none

/-! ## Lazy initializer (`lazily_setup`, lines 194-219) -/

/-- The initializer's static state: the error-checking mutex (owner's
thread id, or `none` if free) and the `setup_done` flag, together with
the `globals` struct it protects. -/
structure InitState where
  mutex_owner : Option Nat
  setup_done : Bool
  globals : Globals
  deriving Repr, DecidableEq

/-- `lazily_setup`, executed by thread `tid`.  Result: `none` when the
call would block on the mutex (held by another thread); otherwise
`some (.error e)` when `setup` aborts the process, or
`some (.ok (s, ranSetup))` with the new state and whether `setup` was
invoked.  `pthread_mutex_lock` on the error-checking mutex returns
`EDEADLK` when the calling thread already holds it (the recursive-call
early return, lines 208-209). -/
def lazily_setup (tid : Nat) (dl : String → Option Nat) (ps : Nat)
    (env : String → Option String) (s : InitState) :
    Option (Except FatalError (InitState × Bool)) :=
  if s.setup_done then some (.ok (s, false))
  else if s.mutex_owner = some tid then some (.ok (s, false))
  else if s.mutex_owner ≠ none then none
  else
    if ¬ s.setup_done then
      match setup dl ps env s.globals with
      | .error e => some (.error e)
      | .ok g => some (.ok ({ mutex_owner := none, setup_done := true, globals := g }, true))
    else some (.ok ({ s with mutex_owner := none }, false))

/-! ## Interposed entry points (lines 256-326)

Each wrapper delegates to the resolved real primitive (passed here as a
function argument, standing for the call through `globals.ext_*`) and
feeds the result to `merge_if_profitable`.  The wrapper's value is the
pair of the returned pointer and the madvise call the policy issued. -/

/-- `calloc` wrapper (lines 257-265). -/
def calloc (g : Globals) (ext_calloc : Nat → Nat → Nat) (nmemb size : Nat) :
    Nat × Option AdviseCall :=
  let res := ext_calloc nmemb size
  (res, merge_if_profitable g res size (-1))

/-- `malloc` wrapper (lines 268-276). -/
def malloc (g : Globals) (ext_malloc : Nat → Nat) (size : Nat) :
    Nat × Option AdviseCall :=
  let res := ext_malloc size
  (res, merge_if_profitable g res size (-1))

/-- `mmap` wrapper (lines 279-288). -/
def mmap (g : Globals) (ext_mmap : Nat → Nat → Int → Int → Int → Int → Nat)
    (addr length : Nat) (prot flags fd offset : Int) : Nat × Option AdviseCall :=
  let res := ext_mmap addr length prot flags fd offset
  (res, merge_if_profitable g res length flags)

/-- A call forwarded to the real `mremap`: either the four fixed
arguments, or those plus the target address read from the variadic
list. -/
inductive MremapArgs where
  | fourArg (old_address old_length new_length : Nat) (flags : Int)
  | fiveArg (old_address old_length new_length : Nat) (flags : Int) (target_address : Nat)
  deriving Repr, DecidableEq

/-- `mremap` wrapper (lines 291-315).  `variadic` is the value sitting in
the variadic argument list; it is read (and forwarded as the fifth
argument) only when `flags & MREMAP_FIXED` is set.  The forwarded call is
returned alongside the result so that what was read can be observed. -/
def mremap (g : Globals) (ext_mremap : MremapArgs → Nat)
    (old_address old_length new_length : Nat) (flags : Int) (variadic : Nat) :
    Nat × MremapArgs × Option AdviseCall :=
  let fwd : MremapArgs :=
    if c_int_and flags MREMAP_FIXED ≠ 0 then
      .fiveArg old_address old_length new_length flags variadic
    else
      .fourArg old_address old_length new_length flags
  let res := ext_mremap fwd
  (res, fwd, merge_if_profitable g res new_length (-1))

/-- `realloc` wrapper (lines 318-326). -/
def realloc (g : Globals) (ext_realloc : Nat → Nat → Nat) (addr size : Nat) :
    Nat × Option AdviseCall :=
  let res := ext_realloc addr size
  (res, merge_if_profitable g res size (-1))

/-! ## Helper lemmas (shared) -/

/-- The rounding offset (`raw_address - page_address`) is `address mod
page_size`; this also justifies the `assert` on line 232. -/
theorem sub_page_eq_mod (a b : Nat) : a - a / b * b = a % b := by
  have h := Nat.div_add_mod' a b
  omega

/-- For a configured threshold (between 0 and `INT_MAX`), the C
conversion to `size_t` is just `Int.toNat`. -/
theorem int_to_size_t_eq_toNat (i : Int) (h0 : 0 ≤ i) (h : i ≤ INT_MAX) :
    int_to_size_t i = i.toNat := by
  have h' : i ≤ 2 ^ 31 - 1 := h
  unfold int_to_size_t
  omega

/-- Characterisation of when `merge_if_profitable` issues the madvise
call: the extended length beats the threshold, the address is non-null,
and the flag filter passes. -/
theorem merge_isSome_iff (g : Globals) (address length : Nat) (flags : Int)
    (hT0 : 0 ≤ g.merge_threshold) (hTmax : g.merge_threshold ≤ INT_MAX)
    (hL : length + address % g.page_size < SIZE_MOD) :
    (merge_if_profitable g address length flags).isSome ↔
      (g.merge_threshold.toNat < length + address % g.page_size ∧
        address ≠ 0 ∧ flags_allow flags) := by
  have hmod : (length + (address - address / g.page_size * g.page_size)) % SIZE_MOD
      = length + address % g.page_size := by
    rw [sub_page_eq_mod]
    exact Nat.mod_eq_of_lt hL
  simp only [merge_if_profitable, hmod, int_to_size_t_eq_toNat g.merge_threshold hT0 hTmax]
  split_ifs with h1 h2
  · simp only [Option.isSome_none, Bool.false_eq_true, false_iff]
    intro hcon
    rcases h1 with h1 | h1
    · omega
    · exact hcon.2.1 h1
  · simp only [Option.isSome_some, true_iff]
    refine ⟨by omega, fun h0 => h1 (Or.inr h0), h2⟩
  · simp only [Option.isSome_none, Bool.false_eq_true, false_iff]
    intro hcon
    exact h2 hcon.2.2

/-! ## Claim theorems -/

/-- C1 (Transparency): for every hooked primitive (calloc, malloc, mmap,
mremap, realloc) and every combination of arguments, the interposed
entry point returns exactly the value returned by the delegated real
primitive for those same arguments, unchanged — including failure values
such as a null pointer (the real primitives here are arbitrary
functions, so 0-returning ones are covered). -/
theorem interposed_transparency (g : Globals)
    (ext_calloc : Nat → Nat → Nat) (ext_malloc : Nat → Nat)
    (ext_mmap : Nat → Nat → Int → Int → Int → Int → Nat)
    (ext_mremap : MremapArgs → Nat) (ext_realloc : Nat → Nat → Nat)
    (nmemb size msize addr length old_address old_length new_length variadic raddr rsize : Nat)
    (prot flags fd offset mflags : Int) :
    (calloc g ext_calloc nmemb size).1 = ext_calloc nmemb size ∧
    (malloc g ext_malloc msize).1 = ext_malloc msize ∧
    (mmap g ext_mmap addr length prot flags fd offset).1
      = ext_mmap addr length prot flags fd offset ∧
    (mremap g ext_mremap old_address old_length new_length mflags variadic).1
      = ext_mremap (mremap g ext_mremap old_address old_length new_length mflags variadic).2.1 ∧
    (realloc g ext_realloc raddr rsize).1 = ext_realloc raddr rsize :=
  ⟨rfl, rfl, rfl, rfl, rfl⟩

/-- C2 (Threshold boundary): for every non-null address and every
configured threshold (a C `int` in `[0, INT_MAX]`), the merge advisory
is issued iff the page-extended length is strictly greater than the
threshold, given flags that pass the filter. -/
theorem merge_threshold_boundary (g : Globals) (address length : Nat) (flags : Int)
    (hT0 : 0 ≤ g.merge_threshold) (hTmax : g.merge_threshold ≤ INT_MAX)
    (haddr : address ≠ 0) (hflags : flags_allow flags)
    (hL : length + address % g.page_size < SIZE_MOD) :
    (merge_if_profitable g address length flags).isSome ↔
      g.merge_threshold < ((length + address % g.page_size : Nat) : Int) := by
  rw [merge_isSome_iff g address length flags hT0 hTmax hL]
  constructor
  · rintro ⟨h, -, -⟩
    omega
  · intro h
    exact ⟨by omega, haddr, hflags⟩

/-- C2 witness: with the default threshold 32768, extended length 32769
(= T + 1) is advised and 32768 (= T) is not. -/
theorem merge_threshold_boundary_witness :
    (merge_if_profitable (initGlobals 1 1 1 1) 4096 32769 (-1)).isSome ∧
    ¬ (merge_if_profitable (initGlobals 1 1 1 1) 4096 32768 (-1)).isSome := by
  constructor
  · exact (merge_threshold_boundary (initGlobals 1 1 1 1) 4096 32769 (-1)
      (by decide) (by decide) (by decide) (by decide) (by decide)).mpr (by decide)
  · intro h
    have := (merge_threshold_boundary (initGlobals 1 1 1 1) 4096 32768 (-1)
      (by decide) (by decide) (by decide) (by decide) (by decide)).mp h
    exact absurd this (by decide)

/-- C3 (Flags filter): for every region above the threshold (non-null
address), the advisory is issued iff flags equal -1, or the flags
include both MAP_PRIVATE and MAP_ANONYMOUS and include neither
MAP_GROWSDOWN nor MAP_STACK; any other combination (shared,
file-backed, stack-like) yields no advisory. -/
theorem merge_flags_filter (g : Globals) (address length : Nat) (flags : Int)
    (hT0 : 0 ≤ g.merge_threshold) (hTmax : g.merge_threshold ≤ INT_MAX)
    (haddr : address ≠ 0)
    (hL : length + address % g.page_size < SIZE_MOD)
    (habove : g.merge_threshold < ((length + address % g.page_size : Nat) : Int)) :
    (merge_if_profitable g address length flags).isSome ↔
      (flags = -1 ∨
        (c_int_and flags MAP_PRIVATE ≠ 0 ∧ c_int_and flags MAP_ANONYMOUS ≠ 0 ∧
          c_int_and flags MAP_GROWSDOWN = 0 ∧ c_int_and flags MAP_STACK = 0)) := by
  rw [merge_isSome_iff g address length flags hT0 hTmax hL]
  constructor
  · rintro ⟨-, -, h⟩
    exact h
  · intro h
    exact ⟨by omega, haddr, h⟩

/-- C3 witness: above the threshold, private|anonymous is advised;
adding MAP_STACK is not; MAP_SHARED|MAP_ANONYMOUS (0x21) is not. -/
theorem merge_flags_filter_witness :
    (merge_if_profitable (initGlobals 1 1 1 1) 4096 40000 0x22).isSome ∧
    ¬ (merge_if_profitable (initGlobals 1 1 1 1) 4096 40000 (0x22 + 0x20000)).isSome ∧
    ¬ (merge_if_profitable (initGlobals 1 1 1 1) 4096 40000 0x21).isSome := by
  refine ⟨?_, ?_, ?_⟩
  · exact (merge_flags_filter (initGlobals 1 1 1 1) 4096 40000 0x22
      (by decide) (by decide) (by decide) (by decide) (by decide)).mpr (by decide)
  · intro h
    have := (merge_flags_filter (initGlobals 1 1 1 1) 4096 40000 (0x22 + 0x20000)
      (by decide) (by decide) (by decide) (by decide) (by decide)).mp h
    exact absurd this (by decide)
  · intro h
    have := (merge_flags_filter (initGlobals 1 1 1 1) 4096 40000 0x21
      (by decide) (by decide) (by decide) (by decide) (by decide)).mp h
    exact absurd this (by decide)

/-- C4 (Page rounding): whenever an advisory is issued, it starts at the
enclosing page boundary (the address rounded down to a multiple of the
page size) with length extended by the offset of the address within its
page, so the advised region covers all of [address, address+length). -/
theorem merge_page_rounding (g : Globals) (address length : Nat) (flags : Int)
    (c : AdviseCall)
    (hL : length + address % g.page_size < SIZE_MOD)
    (hc : merge_if_profitable g address length flags = some c) :
    c.addr = address / g.page_size * g.page_size ∧
    c.len = length + address % g.page_size ∧
    g.page_size ∣ c.addr ∧
    c.addr ≤ address ∧
    address + length ≤ c.addr + c.len := by
  have hmod : (length + (address - address / g.page_size * g.page_size)) % SIZE_MOD
      = length + address % g.page_size := by
    rw [sub_page_eq_mod]
    exact Nat.mod_eq_of_lt hL
  have hdm := Nat.div_add_mod' address g.page_size
  simp only [merge_if_profitable, hmod] at hc
  split_ifs at hc
  obtain rfl : (⟨address / g.page_size * g.page_size,
      length + address % g.page_size, MADV_MERGEABLE⟩ : AdviseCall) = c :=
    Option.some.inj hc
  refine ⟨rfl, rfl, dvd_mul_left g.page_size (address / g.page_size), ?_, ?_⟩
  · exact Nat.div_mul_le_self address g.page_size
  · show address + length ≤ address / g.page_size * g.page_size + (length + address % g.page_size)
    omega

/-- C4 witness: address 100 bytes into a page (8292, page size 4096)
with requested length 5000 is advised from the page boundary 8192 with
length 5100, covering the original region. -/
theorem merge_page_rounding_witness :
    (8192 : Nat) = 8292 / 4096 * 4096 ∧
    (5100 : Nat) = 5000 + 8292 % 4096 ∧
    (4096 : Nat) ∣ 8192 ∧
    (8192 : Nat) ≤ 8292 ∧
    8292 + 5000 ≤ 8192 + 5100 :=
  merge_page_rounding ⟨1, 1, 1, 0, 1, 4096, 0⟩ 8292 5000 (-1)
    ⟨8192, 5100, MADV_MERGEABLE⟩ (by decide) (by decide)

/-- C8 (Null-address no-op): for every length, flags, and global state,
a null address yields no merge advisory. -/
theorem merge_null_noop (g : Globals) (length : Nat) (flags : Int) :
    merge_if_profitable g 0 length flags = none := by
  simp [merge_if_profitable]

/-- C5 (Recursive reentry): a call to the lazy initializer made while
the error-checking mutex is already held by the calling thread returns
immediately (it neither blocks nor aborts), does not invoke `setup`,
and leaves the whole state — the `setup_done` flag and the globals with
the resolved-primitives set — unchanged. -/
theorem lazily_setup_reentrant (tid : Nat) (dl : String → Option Nat) (ps : Nat)
    (env : String → Option String) (s : InitState)
    (h : s.mutex_owner = some tid) :
    lazily_setup tid dl ps env s = some (.ok (s, false)) := by
  unfold lazily_setup
  by_cases hd : s.setup_done <;> simp [hd, h]

/-- C5 witness: a reentrant call on thread 0 (mutex owner 0, setup not
yet done) returns the state unchanged with `setup` not invoked — even
under a dynamic loader on which `setup` would abort. -/
theorem lazily_setup_reentrant_witness :
    lazily_setup 0 (fun _ => none) 4096 (fun _ => none)
        ⟨some 0, false, initGlobals 1 1 1 1⟩
      = some (.ok (⟨some 0, false, initGlobals 1 1 1 1⟩, false)) :=
  lazily_setup_reentrant 0 (fun _ => none) 4096 (fun _ => none)
    ⟨some 0, false, initGlobals 1 1 1 1⟩ rfl

/-- C9 (Variadic remap dispatch): the interposed `mremap` forwards the
variadic fifth (target address) argument to the real `mremap` iff the
flags contain `MREMAP_FIXED`; otherwise it forwards exactly the four
fixed arguments, and the forwarded call does not depend on what sits in
the variadic list. -/
theorem mremap_variadic_dispatch (g : Globals) (ext_mremap : MremapArgs → Nat)
    (old_address old_length new_length variadic variadic' : Nat) (flags : Int) :
    (c_int_and flags MREMAP_FIXED ≠ 0 →
      (mremap g ext_mremap old_address old_length new_length flags variadic).2.1
        = .fiveArg old_address old_length new_length flags variadic) ∧
    (c_int_and flags MREMAP_FIXED = 0 →
      (mremap g ext_mremap old_address old_length new_length flags variadic).2.1
        = .fourArg old_address old_length new_length flags ∧
      (mremap g ext_mremap old_address old_length new_length flags variadic).2.1
        = (mremap g ext_mremap old_address old_length new_length flags variadic').2.1) := by
  unfold mremap
  by_cases h : c_int_and flags MREMAP_FIXED = 0 <;> simp [h]

/-- C9 witness: with `flags = MREMAP_MAYMOVE|MREMAP_FIXED` (3) the
target 777 is forwarded as a fifth argument; with `flags =
MREMAP_MAYMOVE` (1) the four-argument form is forwarded regardless of
the variadic slot's content. -/
theorem mremap_variadic_dispatch_witness :
    ((mremap (initGlobals 1 1 1 1) (fun _ => 0) 4096 100 200 3 777).2.1
      = .fiveArg 4096 100 200 3 777) ∧
    ((mremap (initGlobals 1 1 1 1) (fun _ => 0) 4096 100 200 1 777).2.1
      = .fourArg 4096 100 200 1) ∧
    ((mremap (initGlobals 1 1 1 1) (fun _ => 0) 4096 100 200 1 777).2.1
      = (mremap (initGlobals 1 1 1 1) (fun _ => 0) 4096 100 200 1 888).2.1) := by
  refine ⟨?_, ?_⟩
  · exact (mremap_variadic_dispatch (initGlobals 1 1 1 1) (fun _ => 0)
      4096 100 200 777 888 3).1 (by decide)
  · exact (mremap_variadic_dispatch (initGlobals 1 1 1 1) (fun _ => 0)
      4096 100 200 777 888 1).2 (by decide)

/-- C6 (Fatal symbol-resolution failure): if the dynamic loader fails to
resolve any of the five hooked symbol names, `setup` aborts the process
with exit status 1 (nonzero) and a diagnostic naming a missing symbol,
and returns no globals — so no partially-resolved primitive set is ever
installed. -/
theorem setup_fatal_on_unresolved (dl : String → Option Nat) (ps : Nat)
    (env : String → Option String) (g : Globals) (sym : String)
    (hmem : sym ∈ hookedSymbols) (hmiss : dl sym = none) :
    ∃ missing, missing ∈ hookedSymbols ∧ dl missing = none ∧
      setup dl ps env g
        = .error { status := 1, msg := "failed to load " ++ missing } := by
  simp only [hookedSymbols, List.mem_cons, List.mem_singleton, List.not_mem_nil] at hmem
  cases hc : dl "calloc" with
  | none =>
    exact ⟨"calloc", by simp [hookedSymbols], hc, by simp only [setup, xdlsym, hc]; rfl⟩
  | some vc =>
  cases hm : dl "malloc" with
  | none =>
    exact ⟨"malloc", by simp [hookedSymbols], hm, by simp only [setup, xdlsym, hc, hm]; rfl⟩
  | some vm =>
  cases hmm : dl "mmap" with
  | none =>
    exact ⟨"mmap", by simp [hookedSymbols], hmm, by simp only [setup, xdlsym, hc, hm, hmm]; rfl⟩
  | some vmm =>
  cases hmr : dl "mremap" with
  | none =>
    exact ⟨"mremap", by simp [hookedSymbols], hmr,
      by simp only [setup, xdlsym, hc, hm, hmm, hmr]; rfl⟩
  | some vmr =>
  cases hr : dl "realloc" with
  | none =>
    exact ⟨"realloc", by simp [hookedSymbols], hr,
      by simp only [setup, xdlsym, hc, hm, hmm, hmr, hr]; rfl⟩
  | some vr =>
    exfalso
    rcases hmem with rfl | rfl | rfl | rfl | rfl | h
    · exact absurd hmiss (by simp [hc])
    · exact absurd hmiss (by simp [hm])
    · exact absurd hmiss (by simp [hmm])
    · exact absurd hmiss (by simp [hmr])
    · exact absurd hmiss (by simp [hr])
    · exact h

/-- C6 witness: a loader that resolves everything except `mremap` makes
`setup` abort with status 1 naming `mremap`. -/
theorem setup_fatal_on_unresolved_witness :
    ∃ missing, missing ∈ hookedSymbols ∧
      (fun s => if s = "mremap" then none else some 7 : String → Option Nat) missing
        = none ∧
      setup (fun s => if s = "mremap" then none else some 7) 4096 (fun _ => none)
          (initGlobals 1 1 1 1)
        = .error { status := 1, msg := "failed to load " ++ missing } :=
  setup_fatal_on_unresolved (fun s => if s = "mremap" then none else some 7) 4096
    (fun _ => none) (initGlobals 1 1 1 1) "mremap" (by decide) (by decide)

/-- C7 (Invalid configuration falls back to default): whenever the
threshold environment value is absent, or parses with leftover
characters (non-numeric or trailing garbage), or parses negative, the
parser yields -1 and `setup` (with all five symbols resolvable) succeeds
keeping the built-in default merge threshold of 4096 * 8 = 32768
bytes. -/
theorem invalid_threshold_falls_back (dl : String → Option Nat) (ps : Nat)
    (env : String → Option String) (g : Globals)
    (hres : ∀ sym ∈ hookedSymbols, dl sym ≠ none)
    (hdef : g.merge_threshold = 4096 * 8)
    (hinv : env MERGE_THRESHOLD_ENV_NAME = none ∨
      ∃ s, env MERGE_THRESHOLD_ENV_NAME = some s ∧
        ((strtol10 s.toList).2 ≠ [] ∨ (strtol10 s.toList).1 < 0)) :
    get_int_from_environment env MERGE_THRESHOLD_ENV_NAME = -1 ∧
    ∃ g', setup dl ps env g = .ok g' ∧ g'.merge_threshold = 4096 * 8 := by
  have hget : get_int_from_environment env MERGE_THRESHOLD_ENV_NAME = -1 := by
    rcases hinv with h | ⟨s, hs, hbad⟩
    · simp [get_int_from_environment, h]
    · simp only [get_int_from_environment, hs]
      rw [if_pos hbad]
  obtain ⟨vc, hc⟩ : ∃ v, dl "calloc" = some v := by
    cases h : dl "calloc"
    · exact absurd h (hres "calloc" (by decide))
    · exact ⟨_, rfl⟩
  obtain ⟨vm, hm⟩ : ∃ v, dl "malloc" = some v := by
    cases h : dl "malloc"
    · exact absurd h (hres "malloc" (by decide))
    · exact ⟨_, rfl⟩
  obtain ⟨vmm, hmm⟩ : ∃ v, dl "mmap" = some v := by
    cases h : dl "mmap"
    · exact absurd h (hres "mmap" (by decide))
    · exact ⟨_, rfl⟩
  obtain ⟨vmr, hmr⟩ : ∃ v, dl "mremap" = some v := by
    cases h : dl "mremap"
    · exact absurd h (hres "mremap" (by decide))
    · exact ⟨_, rfl⟩
  obtain ⟨vr, hr⟩ : ∃ v, dl "realloc" = some v := by
    cases h : dl "realloc"
    · exact absurd h (hres "realloc" (by decide))
    · exact ⟨_, rfl⟩
  refine ⟨hget, ⟨vc, vm, vmm, vmr, vr, ps, g.merge_threshold⟩, ?_, hdef⟩
  simp only [setup, xdlsym, hc, hm, hmm, hmr, hr, hget]
  rfl

/-- C7 witness: the value "abc" parses to -1 and `setup` keeps the
default threshold 32768. -/
theorem invalid_threshold_falls_back_witness :
    get_int_from_environment (fun _ => some "abc") MERGE_THRESHOLD_ENV_NAME = -1 ∧
    ∃ g', setup (fun _ => some 3) 4096 (fun _ => some "abc") (initGlobals 1 1 1 1)
        = .ok g' ∧ g'.merge_threshold = 4096 * 8 :=
  invalid_threshold_falls_back (fun _ => some 3) 4096 (fun _ => some "abc")
    (initGlobals 1 1 1 1) (by decide) rfl
    (Or.inr ⟨"abc", rfl, Or.inl (by decide)⟩)

/-- C10 (Empty-string threshold): when the threshold environment
variable is set to the empty string, the parser returns 0 (not -1,
since `strtol` consumes nothing and leaves the end pointer at the
terminating NUL), `setup` installs a merge threshold of 0, and every
region with non-null address, passing flags and page-extended length at
least 1 is advised. -/
theorem empty_env_threshold_zero (dl : String → Option Nat) (ps : Nat)
    (env : String → Option String) (g : Globals)
    (address length : Nat) (flags : Int) (g' : Globals)
    (hres : ∀ sym ∈ hookedSymbols, dl sym ≠ none)
    (henv : env MERGE_THRESHOLD_ENV_NAME = some "")
    (hok : setup dl ps env g = .ok g')
    (haddr : address ≠ 0) (hflags : flags_allow flags)
    (hL1 : 1 ≤ length + address % g'.page_size)
    (hL : length + address % g'.page_size < SIZE_MOD) :
    get_int_from_environment env MERGE_THRESHOLD_ENV_NAME = 0 ∧
    g'.merge_threshold = 0 ∧
    (merge_if_profitable g' address length flags).isSome := by
  have hget : get_int_from_environment env MERGE_THRESHOLD_ENV_NAME = 0 := by
    simp only [get_int_from_environment, henv]
    decide
  obtain ⟨vc, hc⟩ : ∃ v, dl "calloc" = some v := by
    cases h : dl "calloc"
    · exact absurd h (hres "calloc" (by decide))
    · exact ⟨_, rfl⟩
  obtain ⟨vm, hm⟩ : ∃ v, dl "malloc" = some v := by
    cases h : dl "malloc"
    · exact absurd h (hres "malloc" (by decide))
    · exact ⟨_, rfl⟩
  obtain ⟨vmm, hmm⟩ : ∃ v, dl "mmap" = some v := by
    cases h : dl "mmap"
    · exact absurd h (hres "mmap" (by decide))
    · exact ⟨_, rfl⟩
  obtain ⟨vmr, hmr⟩ : ∃ v, dl "mremap" = some v := by
    cases h : dl "mremap"
    · exact absurd h (hres "mremap" (by decide))
    · exact ⟨_, rfl⟩
  obtain ⟨vr, hr⟩ : ∃ v, dl "realloc" = some v := by
    cases h : dl "realloc"
    · exact absurd h (hres "realloc" (by decide))
    · exact ⟨_, rfl⟩
  simp only [setup, xdlsym, hc, hm, hmm, hmr, hr, hget] at hok
  have hth : g'.merge_threshold = 0 := by
    have h := Except.ok.inj hok
    rw [← h]
    rfl
  refine ⟨hget, hth, ?_⟩
  rw [merge_isSome_iff g' address length flags (by rw [hth]) (by rw [hth]; decide) hL]
  refine ⟨?_, haddr, hflags⟩
  rw [hth]
  omega

/-- C10 witness: an empty threshold value yields 0, `setup` installs
threshold 0, and a page-aligned region of length 1 is advised. -/
theorem empty_env_threshold_zero_witness :
    get_int_from_environment (fun _ => some "") MERGE_THRESHOLD_ENV_NAME = 0 ∧
    (⟨9, 9, 9, 9, 9, 4096, 0⟩ : Globals).merge_threshold = 0 ∧
    (merge_if_profitable ⟨9, 9, 9, 9, 9, 4096, 0⟩ 4096 1 (-1)).isSome :=
  empty_env_threshold_zero (fun _ => some 9) 4096 (fun _ => some "")
    (initGlobals 1 1 1 1) 4096 1 (-1) ⟨9, 9, 9, 9, 9, 4096, 0⟩
    (by decide) rfl rfl (by decide) (by decide) (by decide) (by decide)

end KsmPreload
